import Mathlib

/-!
Verification of the Wi-Fi roaming optimizer (`src/wifi_optimizer.py`).

The development is a shallow embedding of the program's pure core:

* a 6-byte radio address is modelled as the six bytes that
  `binascii.unhexlify` produces from the hex string (`Mac`);
* `_AccessPointSelector._fit_target` becomes `fit_pred` / `fit_target`;
* `_AccessPointSelector.find` becomes `matched_cands` / `find`; the source
  computes `np.sqrt(dx ** 2 + dy ** 2)` and takes `np.argmin`; since the
  square root is strictly monotone on nonnegative values, taking the argmin
  of the squared distances selects the same row, so distances are embedded
  squared (`l2_dist_sq`) over exact rationals; `np.argmin` returns the
  first index attaining the minimum, rendered as a left fold that replaces
  the running best only on a strictly smaller value;
* `_AccessPointSelector.__init__`'s station lookup becomes `selector_init`;
  the blocking `_halt()` call and the `ValueError` that
  `pandas.Series.item()` raises on a non-singleton selection are modelled
  as the explicit outcomes `InitOutcome.halted` and `InitOutcome.crash`;
* `_find_bssids` becomes `find_bssids`; Python's `max()` raises
  `ValueError` on an empty sequence, modelled as `none`;
* the body of the `while True` loop in `_main` (after the scan) becomes
  `tick`, with the closure `_update_bssid` as `update_bssid`; the mutable
  profile field `wireless.bssid` and the loop variable `last_bssid` form
  the state `WOState`, and the membership test of `connection_path` in the
  active connection list is the boolean input `verifyOk`.
-/

namespace WifiOptimizer

/-- A 6-byte hardware address, as the byte values produced by
`binascii.unhexlify(bssid.replace(':', ''))` in the source. -/
structure Mac where
  b0 : Nat
  b1 : Nat
  b2 : Nat
  b3 : Nat
  b4 : Nat
  b5 : Nat
deriving DecidableEq

/-- One row of the access-point catalog `self._targets`:
an id (already unhexlified to bytes) and a position. -/
structure Target where
  id : Mac
  x : ℚ
  y : ℚ
deriving DecidableEq

/-- The three filter conditions of `_AccessPointSelector._fit_target`
for one catalog row, with `pattern` the observed address and `mac` the
catalog id:
`pattern[1:-1] == mac[1:-1]`,
`abs(pattern[0] - mac[0]) in [0, 8]`, and
`pattern[-1] - mac[-1] >= 0 and pattern[-1] - mac[-1] < 16`
(Python subtracts the byte values as plain signed integers). -/
def fit_pred (pattern mac : Mac) : Bool :=
  (pattern.b1 == mac.b1 && pattern.b2 == mac.b2 &&
    pattern.b3 == mac.b3 && pattern.b4 == mac.b4) &&
  (((pattern.b0 : Int) - (mac.b0 : Int)).natAbs == 0 ||
    ((pattern.b0 : Int) - (mac.b0 : Int)).natAbs == 8) &&
  (decide (0 ≤ (pattern.b5 : Int) - (mac.b5 : Int)) &&
    decide ((pattern.b5 : Int) - (mac.b5 : Int) < 16))

/-- `_AccessPointSelector._fit_target`: the list `filtered` of catalog
indices whose row satisfies `fit_pred`, then `filtered[0]` if the list is
nonempty and `None` otherwise (duplicates only produce a log line). -/
def fit_target (targets : List Target) (bssid : Mac) : Option Nat :=
  let filtered := targets.enum.filterMap
    (fun p => if fit_pred bssid p.2.id then some p.1 else none)
  filtered.head?

/-- Modelled from the spec: the match formula exactly as §8 states it,
`octets 1-4 equal`, `|o[0]-r.id[0]| ∈ \x7b0,8\x7d`, and
`(r.id[5]-o[5]) mod 256 ∈ [0,16)`.  This definition follows the spec's
words (note the direction of the last-octet subtraction) and exists only
to be compared with `fit_pred`, which is translated from the source. -/
def spec_match (o r : Mac) : Bool :=
  (o.b1 == r.b1 && o.b2 == r.b2 && o.b3 == r.b3 && o.b4 == r.b4) &&
  (((o.b0 : Int) - (r.b0 : Int)).natAbs == 0 ||
    ((o.b0 : Int) - (r.b0 : Int)).natAbs == 8) &&
  (decide (0 ≤ ((r.b5 : Int) - (o.b5 : Int)) % 256) &&
    decide (((r.b5 : Int) - (o.b5 : Int)) % 256 < 16))

/-- The candidate list built in `_AccessPointSelector.find`: for each
observed address in scan order, the catalog row `fit_target` resolves it
to, paired with the observed address itself (the `targets` data frame
after `iloc` selection with the `bssid` column attached). -/
def matched_cands (targets : List Target) (bssids : List Mac) :
    List (Target × Mac) :=
  bssids.filterMap (fun b =>
    match fit_target targets b with
    | some i => (targets.get? i).map (fun t => (t, b))
    | none => none)

/-- The squared Euclidean distance `|t.x - x| ** 2 + |t.y - y| ** 2`
computed per row in `_AccessPointSelector.find` (the source then applies
`np.sqrt`, which is strictly monotone and hence irrelevant to the argmin). -/
def l2_dist_sq (x y : ℚ) (t : Target) : ℚ :=
  |t.x - x| ^ 2 + |t.y - y| ^ 2

/-- One comparison step of the `np.argmin` scan over the candidate rows:
keep the later row only on a strictly smaller distance, so that the first
row attaining the minimum wins, exactly as `np.argmin` returns the first
minimal index. -/
def sel_step (x y : ℚ) : Target × Mac → Target × Mac → Target × Mac :=
  fun best p =>
    if l2_dist_sq x y p.1 < l2_dist_sq x y best.1 then p else best

/-- `_AccessPointSelector.find`: `None` on an empty candidate list, else
the observed address of the row at `np.argmin` of the distances, rendered
as a left fold of `sel_step`. -/
def find (x y : ℚ) (targets : List Target) (bssids : List Mac) :
    Option Mac :=
  match matched_cands targets bssids with
  | [] => none
  | c :: cs => some ((cs.foldl (sel_step x y) c).2)

/-- One row of the station catalog `self._sources`. -/
structure Node where
  id : String
  x : ℚ
  y : ℚ
deriving DecidableEq

/-- Outcome of `_AccessPointSelector.__init__`'s station lookup:
`halted` models the blocking `_halt()` call, `crash` models an uncaught
exception escaping the constructor, `ok` carries `self._x, self._y`. -/
inductive InitOutcome where
  | halted
  | crash
  | ok (x y : ℚ)
deriving DecidableEq

/-- The station lookup of `_AccessPointSelector.__init__`:
`index_source = self._sources['id'] == system_uuid`; on no match `_halt()`
is called; otherwise `source['x'].item()` succeeds only when exactly one
row matched and raises `ValueError` when several rows matched. -/
def selector_init (sources : List Node) (systemUuid : String) :
    InitOutcome :=
  match sources.filter (fun n => n.id == systemUuid) with
  | [] => .halted
  | [n] => .ok n.x n.y
  | _ :: _ :: _ => .crash

/-- One visible access point as read from the scanner in `_find_bssids`:
its SSID bytes, `max_bitrate` and `hw_address`. -/
structure AccessPointInfo where
  ssid : List Nat
  maxBitrate : Nat
  hwAddress : Mac
deriving DecidableEq

/-- `_find_bssids` after the rescan: filter the visible access points to
the requested SSID, take `max(ap.max_bitrate for ap in aps)`, and return
the addresses sharing that maximum.  Python's `max()` raises `ValueError`
on an empty sequence; that crash is modelled as `none`. -/
def find_bssids (aps : List AccessPointInfo) (ssid : List Nat) :
    Option (List Mac) :=
  let matching := aps.filter (fun ap => ap.ssid == ssid)
  match matching.map (fun ap => ap.maxBitrate) with
  | [] => none
  | r :: rs =>
    let maxRate := rs.foldl max r
    some ((matching.filter (fun ap => ap.maxBitrate == maxRate)).map
      (fun ap => ap.hwAddress))

/-- Configuration flags of `_main` read from the environment. -/
structure Config where
  oneShot : Bool
  dryRun : Bool
deriving DecidableEq

/-- The mutable state threaded through `_main`'s loop: the profile's
stored `wireless.bssid` and the loop variable `last_bssid`. -/
structure WOState where
  wireless : Option Mac
  lastBssid : Option Mac
deriving DecidableEq

/-- Result of one `_update_bssid` call: the new stored `wireless.bssid`,
whether the profile object was mutated (the early `return` was not taken),
and whether `update_profile` plus `activate_connection` ran (mutated and
not dry-run). -/
structure UpdateResult where
  bssid : Option Mac
  mutated : Bool
  pushed : Bool
deriving DecidableEq

/-- The closure `_update_bssid` in `_main`: on a requested address equal
to the stored one (or both absent) it returns early with no effect;
otherwise it stores the new value and, unless dry-run, pushes the profile
and reactivates the connection. -/
def update_bssid (dryRun : Bool) (w : Option Mac) (b : Option Mac) :
    UpdateResult :=
  match b with
  | some addr => if w = some addr then ⟨w, false, false⟩
    else ⟨some addr, true, !dryRun⟩
  | none => if w = none then ⟨w, false, false⟩
    else ⟨none, true, !dryRun⟩

/-- Observable outcome of one loop iteration of `_main` after the
selection has been computed. -/
structure TickResult where
  wireless : Option Mac
  lastBssid : Option Mac
  applyMutated : Bool
  applyPushed : Bool
  verified : Bool
  rolledBack : Bool
deriving DecidableEq

/-- The body of `_main`'s `while True` loop after `bssid =
selector.find(bssids)`: the unconditional `_update_bssid(bssid)` call,
then `if not one_shot or bssid is None or last_bssid is None:` the
verification block — when `bssid` is present, check `connection_path in
active_connections` (`verifyOk`); on success commit `last_bssid = bssid`,
on failure `_update_bssid(None)` and `last_bssid = None` — and otherwise
the skip branch that only logs. -/
def tick (cfg : Config) (st : WOState) (bssid : Option Mac)
    (verifyOk : Bool) : TickResult :=
  let u := update_bssid cfg.dryRun st.wireless bssid
  if !cfg.oneShot || bssid.isNone || st.lastBssid.isNone then
    match bssid with
    | some _ =>
      if verifyOk then
        ⟨u.bssid, bssid, u.mutated, u.pushed, true, false⟩
      else
        let u2 := update_bssid cfg.dryRun u.bssid none
        ⟨u2.bssid, none, u.mutated, u.pushed, true, true⟩
    | none =>
      ⟨u.bssid, st.lastBssid, u.mutated, u.pushed, false, false⟩
  else
    ⟨u.bssid, st.lastBssid, u.mutated, u.pushed, false, false⟩

end WifiOptimizer

namespace WifiOptimizer

/-! ### Helper lemmas -/

/-- An `update_bssid` call mutates the profile exactly when the requested
value differs from the stored one. -/
theorem update_bssid_mutated_iff (d : Bool) (w b : Option Mac) :
    (update_bssid d w b).mutated = true ↔ w ≠ b := by
  cases b with
  | some a => by_cases hw : w = some a <;> simp [update_bssid, hw]
  | none => by_cases hw : w = none <;> simp [update_bssid, hw]

/-- Clearing the override always leaves no stored address. -/
theorem update_bssid_none_bssid (d : Bool) (w : Option Mac) :
    (update_bssid d w none).bssid = none := by
  by_cases hw : w = none <;> simp [update_bssid, hw]

/-- A left fold whose step always returns one of its two arguments stays
within the seed and the list. -/
theorem foldl_choice_mem {α : Type} (g : α → α → α)
    (hg : ∀ b z, g b z = b ∨ g b z = z) :
    ∀ (l : List α) (a : α), l.foldl g a ∈ a :: l
  | [], a => by simp
  | c :: t, a => by
    have ih := foldl_choice_mem g hg t (g a c)
    rw [List.foldl_cons]
    rcases List.mem_cons.mp ih with h | h
    · rw [h]
      rcases hg a c with h2 | h2 <;> rw [h2] <;> simp
    · exact List.mem_cons_of_mem _ (List.mem_cons_of_mem _ h)

/-- `sel_step` keeps the later row exactly on a strictly smaller
distance. -/
theorem sel_step_lt (x y : ℚ) (b z : Target × Mac)
    (h : l2_dist_sq x y z.1 < l2_dist_sq x y b.1) :
    sel_step x y b z = z := by
  simp only [sel_step]
  rw [if_pos h]

/-- `sel_step` keeps the earlier row on a tie or a larger distance. -/
theorem sel_step_ge (x y : ℚ) (b z : Target × Mac)
    (h : ¬l2_dist_sq x y z.1 < l2_dist_sq x y b.1) :
    sel_step x y b z = b := by
  simp only [sel_step]
  rw [if_neg h]

/-- The `np.argmin` fold of `find` attains the minimum squared distance
over the seed and the list, and is the first element attaining that
minimum (`np.argmin` returns the first minimal index). -/
theorem foldl_min_spec (x y : ℚ) :
    ∀ (l : List (Target × Mac)) (a : Target × Mac),
      (∀ q ∈ a :: l,
        l2_dist_sq x y (l.foldl (sel_step x y) a).1 ≤ l2_dist_sq x y q.1) ∧
      (a :: l).find? (fun q => decide (l2_dist_sq x y q.1 =
          l2_dist_sq x y (l.foldl (sel_step x y) a).1)) =
        some (l.foldl (sel_step x y) a)
  | [], a => by
    constructor
    · intro q hq
      rcases List.mem_cons.mp hq with h | h
      · subst h; exact le_refl _
      · exact absurd h (List.not_mem_nil q)
    · simp [List.find?]
  | c :: t, a => by
    obtain ⟨ihmin, ihfind⟩ := foldl_min_spec x y t (sel_step x y a c)
    rw [List.foldl_cons]
    by_cases hca : l2_dist_sq x y c.1 < l2_dist_sq x y a.1
    · rw [sel_step_lt x y a c hca] at ihmin ihfind ⊢
      have hrc : l2_dist_sq x y (t.foldl (sel_step x y) c).1 ≤
          l2_dist_sq x y c.1 :=
        ihmin c (List.mem_cons_self c t)
      have hra : l2_dist_sq x y (t.foldl (sel_step x y) c).1 <
          l2_dist_sq x y a.1 := lt_of_le_of_lt hrc hca
      constructor
      · intro q hq
        rcases List.mem_cons.mp hq with h | h
        · subst h; exact le_of_lt hra
        · exact ihmin q h
      · rw [List.find?_cons]
        have hpa : decide (l2_dist_sq x y a.1 =
            l2_dist_sq x y (t.foldl (sel_step x y) c).1) = false := by
          simp only [decide_eq_false_iff_not]
          exact fun hcontra => absurd (hcontra ▸ hra) (lt_irrefl _)
        rw [hpa]
        exact ihfind
    · rw [sel_step_ge x y a c hca] at ihmin ihfind ⊢
      have hle : l2_dist_sq x y a.1 ≤ l2_dist_sq x y c.1 :=
        le_of_not_lt hca
      have hra : l2_dist_sq x y (t.foldl (sel_step x y) a).1 ≤
          l2_dist_sq x y a.1 :=
        ihmin a (List.mem_cons_self a t)
      constructor
      · intro q hq
        rcases List.mem_cons.mp hq with h | h
        · subst h; exact hra
        rcases List.mem_cons.mp h with h2 | h2
        · subst h2; exact le_trans hra hle
        · exact ihmin q (List.mem_cons_of_mem a h2)
      · by_cases hpa : l2_dist_sq x y a.1 =
            l2_dist_sq x y (t.foldl (sel_step x y) a).1
        · have h1 : (a :: t).find?
              (fun q => decide (l2_dist_sq x y q.1 =
                l2_dist_sq x y (t.foldl (sel_step x y) a).1)) = some a := by
            rw [List.find?_cons]
            simp only [hpa, decide_True]
          rw [h1] at ihfind
          have h2 : a = t.foldl (sel_step x y) a := Option.some.inj ihfind
          rw [List.find?_cons]
          simp only [hpa, decide_True]
          exact congrArg some h2
        · have hlt : l2_dist_sq x y (t.foldl (sel_step x y) a).1 <
              l2_dist_sq x y a.1 :=
            lt_of_le_of_ne hra (fun hcontra => hpa hcontra.symm)
          have hpc : decide (l2_dist_sq x y c.1 =
              l2_dist_sq x y (t.foldl (sel_step x y) a).1) = false := by
            simp only [decide_eq_false_iff_not]
            intro hcontra
            exact absurd (hcontra ▸ lt_of_lt_of_le hlt hle) (lt_irrefl _)
          have hpa' : decide (l2_dist_sq x y a.1 =
              l2_dist_sq x y (t.foldl (sel_step x y) a).1) = false := by
            simp only [decide_eq_false_iff_not]
            exact hpa
          rw [List.find?_cons, hpa'] at ihfind
          rw [List.find?_cons, hpa', List.find?_cons, hpc]
          exact ihfind

/-- Every pair in the candidate list carries the observed address it was
built from. -/
theorem matched_cands_snd_mem (targets : List Target) (bssids : List Mac)
    (p : Target × Mac) (hp : p ∈ matched_cands targets bssids) :
    p.2 ∈ bssids := by
  rcases List.mem_filterMap.mp hp with ⟨b, hb, hfb⟩
  cases hft : fit_target targets b with
  | none => rw [hft] at hfb; simp at hfb
  | some i =>
    rw [hft] at hfb
    have hfb2 : (targets.get? i).map (fun t => (t, b)) = some p := hfb
    rcases Option.map_eq_some'.mp hfb2 with ⟨t, hg, hpt⟩
    rw [← hpt]
    exact hb

end WifiOptimizer

namespace WifiOptimizer

/-! ### Claim theorems -/

/-- C1 (amended): the matcher predicate of `_fit_target` holds iff octets
1-4 of the observed address and the record id are identical, the absolute
first-octet difference is 0 or 8, and the plain signed difference
`o[5] - r.id[5]` (observed minus stored, no modular reduction) lies in
`[0, 16)`. -/
theorem fit_pred_iff_amended (o r : Mac) :
    fit_pred o r = true ↔
      ((o.b1 = r.b1 ∧ o.b2 = r.b2 ∧ o.b3 = r.b3 ∧ o.b4 = r.b4) ∧
        (((o.b0 : Int) - (r.b0 : Int)).natAbs = 0 ∨
          ((o.b0 : Int) - (r.b0 : Int)).natAbs = 8) ∧
        (0 ≤ (o.b5 : Int) - (r.b5 : Int) ∧
          (o.b5 : Int) - (r.b5 : Int) < 16)) := by
  constructor
  · intro h
    simp only [fit_pred, Bool.and_eq_true, Bool.or_eq_true, beq_iff_eq,
      decide_eq_true_eq] at h
    tauto
  · intro h
    simp only [fit_pred, Bool.and_eq_true, Bool.or_eq_true, beq_iff_eq,
      decide_eq_true_eq]
    tauto

/-- C1 counterexample: the spec formula `(r.id[5]-o[5]) mod 256 ∈ [0,16)`
disagrees with the code.  With record id `AA:BB:CC:DD:EE:10` and observed
`AA:BB:CC:DD:EE:18` the code matches (`o[5]-r[5] = 8`) while the spec
formula rejects (`(0x10-0x18) mod 256 = 248`); with observed
`AA:BB:CC:DD:EE:00` against record `AA:BB:CC:DD:EE:08` the spec formula
accepts (`(8-0) mod 256 = 8`) while the code rejects (`0-8 < 0`). -/
theorem fit_pred_spec_formula_cex :
    fit_pred ⟨0xAA, 0xBB, 0xCC, 0xDD, 0xEE, 0x18⟩
        ⟨0xAA, 0xBB, 0xCC, 0xDD, 0xEE, 0x10⟩ = true ∧
    spec_match ⟨0xAA, 0xBB, 0xCC, 0xDD, 0xEE, 0x18⟩
        ⟨0xAA, 0xBB, 0xCC, 0xDD, 0xEE, 0x10⟩ = false ∧
    spec_match ⟨0xAA, 0xBB, 0xCC, 0xDD, 0xEE, 0x00⟩
        ⟨0xAA, 0xBB, 0xCC, 0xDD, 0xEE, 0x08⟩ = true ∧
    fit_pred ⟨0xAA, 0xBB, 0xCC, 0xDD, 0xEE, 0x00⟩
        ⟨0xAA, 0xBB, 0xCC, 0xDD, 0xEE, 0x08⟩ = false := by
  decide

/-- C5: the worked example of the spec, evaluated on the embedded matcher.
With the single catalog record `AA:BB:CC:DD:EE:10` at (2,2), observed
`A2:BB:CC:DD:EE:18` matches (first-octet difference 8, last-octet offset
8) and observed `AA:BB:CC:DD:EE:30` does not (offset 32 out of range). -/
theorem worked_example_match :
    fit_target [⟨⟨0xAA, 0xBB, 0xCC, 0xDD, 0xEE, 0x10⟩, 2, 2⟩]
        ⟨0xA2, 0xBB, 0xCC, 0xDD, 0xEE, 0x18⟩ = some 0 ∧
    fit_target [⟨⟨0xAA, 0xBB, 0xCC, 0xDD, 0xEE, 0x10⟩, 2, 2⟩]
        ⟨0xAA, 0xBB, 0xCC, 0xDD, 0xEE, 0x30⟩ = none := by
  decide

/-- C3: evaluation of `_find_bssids` at the failing inputs.  When no
visible access point carries the requested SSID (in particular on an
empty scan result), `max()` runs on an empty sequence and raises
`ValueError` (modelled as `none`): the tick crashes instead of resolving
the lookup failure locally. -/
theorem find_bssids_empty_scan_crash :
    find_bssids [] [104, 111, 109, 101] = none ∧
    find_bssids [⟨[111, 102, 102], 100, ⟨1, 2, 3, 4, 5, 6⟩⟩]
        [104, 111, 109, 101] = none := by
  decide

/-- C4 (amended): the startup station lookup fails closed (`HALTED`) when
no catalog record matches the running station's identity and proceeds
when exactly one matches; when more than one matches it raises an
exception from `source['x'].item()` (a crash, not the `HALTED` state). -/
theorem selector_init_cases (sources : List Node) (uuid : String) :
    ((sources.filter (fun n => n.id == uuid)).length = 0 →
      selector_init sources uuid = InitOutcome.halted) ∧
    ((sources.filter (fun n => n.id == uuid)).length = 1 →
      ∃ n, sources.filter (fun m => m.id == uuid) = [n] ∧
        selector_init sources uuid = InitOutcome.ok n.x n.y) ∧
    (2 ≤ (sources.filter (fun n => n.id == uuid)).length →
      selector_init sources uuid = InitOutcome.crash) := by
  refine ⟨?_, ?_, ?_⟩ <;> intro h
  · rw [List.length_eq_zero] at h
    simp [selector_init, h]
  · rw [List.length_eq_one] at h
    obtain ⟨n, hn⟩ := h
    exact ⟨n, hn, by simp [selector_init, hn]⟩
  · match hm : sources.filter (fun n => n.id == uuid) with
    | [] => rw [hm] at h; simp at h
    | [n] => rw [hm] at h; simp at h
    | a :: b :: t => simp [selector_init, hm]

/-- C4 witness: with an empty station catalog nothing matches and the
lookup halts. -/
theorem selector_init_cases_witness :
    (([] : List Node).filter (fun n => n.id == "u")).length = 0 ∧
    selector_init [] "u" = InitOutcome.halted :=
  ⟨rfl, (selector_init_cases [] "u").1 rfl⟩

/-- C4 counterexample: two catalog rows share the running station's
identity; the claim demands the fail-closed `HALTED` state, but the
lookup raises `ValueError` out of `.item()` instead. -/
theorem selector_init_duplicate_crash_cex :
    (([⟨"u", 0, 0⟩, ⟨"u", 1, 1⟩] : List Node).filter
      (fun n => n.id == "u")).length = 2 ∧
    selector_init [⟨"u", 0, 0⟩, ⟨"u", 1, 1⟩] "u" = InitOutcome.crash ∧
    selector_init [⟨"u", 0, 0⟩, ⟨"u", 1, 1⟩] "u" ≠ InitOutcome.halted := by
  refine ⟨?_, ?_, ?_⟩ <;> decide

/-- C10: when the requested override value already equals the stored
`wireless.bssid` (both set to the same address, or both absent),
`_update_bssid` returns early: the profile keeps its value, no profile
update and no reactivation happen. -/
theorem update_bssid_noop_when_equal (dryRun : Bool) (w b : Option Mac)
    (h : w = b) :
    update_bssid dryRun w b = ⟨w, false, false⟩ := by
  cases b with
  | some a => subst h; simp [update_bssid]
  | none => subst h; simp [update_bssid]

/-- C10 witness: requesting the already-stored address is a no-op. -/
theorem update_bssid_noop_when_equal_witness :
    update_bssid false (some ⟨1, 2, 3, 4, 5, 6⟩) (some ⟨1, 2, 3, 4, 5, 6⟩) =
      ⟨some ⟨1, 2, 3, 4, 5, 6⟩, false, false⟩ :=
  update_bssid_noop_when_equal false _ _ rfl

end WifiOptimizer

namespace WifiOptimizer

/-- C2 (amended): on every tick the apply call runs and mutates the
profile exactly when the selection differs from the stored override; the
verify/rollback step runs exactly when the selection is non-none and
(one-shot is off or no `lastBssid` has been committed).  In particular,
in one-shot mode the verify step is skipped whenever both the selection
and the committed `lastBssid` are non-none, even when they differ. -/
theorem tick_verify_apply_characterization (cfg : Config) (st : WOState)
    (bssid : Option Mac) (v : Bool) :
    ((tick cfg st bssid v).verified = true ↔
      bssid ≠ none ∧ (cfg.oneShot = false ∨ st.lastBssid = none)) ∧
    ((tick cfg st bssid v).applyMutated = true ↔ st.wireless ≠ bssid) := by
  obtain ⟨w, lb⟩ := st
  obtain ⟨os, dr⟩ := cfg
  constructor
  · cases bssid <;> cases lb <;> cases os <;> cases v <;>
      simp [tick, update_bssid]
  · have hmut : (tick ⟨os, dr⟩ ⟨w, lb⟩ bssid v).applyMutated =
        (update_bssid dr w bssid).mutated := by
      cases bssid <;> cases lb <;> cases os <;> cases v <;> simp [tick]
    rw [hmut, update_bssid_mutated_iff]

/-- C2 counterexample: in one-shot mode, after a tick commits
`lastBssid = 01:02:03:04:05:06`, a later tick selecting the different
address `09:02:03:04:05:06` still performs the apply (the profile is
mutated) but skips the verify/rollback step, contradicting the claim
that a changed selection always triggers both. -/
theorem one_shot_differing_selection_cex :
    (tick ⟨true, false⟩ ⟨none, none⟩ (some ⟨1, 2, 3, 4, 5, 6⟩)
        true).lastBssid = some ⟨1, 2, 3, 4, 5, 6⟩ ∧
    (tick ⟨true, false⟩ ⟨none, none⟩ (some ⟨1, 2, 3, 4, 5, 6⟩)
        true).wireless = some ⟨1, 2, 3, 4, 5, 6⟩ ∧
    (tick ⟨true, false⟩ ⟨some ⟨1, 2, 3, 4, 5, 6⟩, some ⟨1, 2, 3, 4, 5, 6⟩⟩
        (some ⟨9, 2, 3, 4, 5, 6⟩) true).applyMutated = true ∧
    (tick ⟨true, false⟩ ⟨some ⟨1, 2, 3, 4, 5, 6⟩, some ⟨1, 2, 3, 4, 5, 6⟩⟩
        (some ⟨9, 2, 3, 4, 5, 6⟩) true).verified = false := by
  decide

/-- C6: on a tick whose apply for a non-empty selection mutated the
profile and whose verification found the managed connection absent
(`verifyOk = false`), the override is cleared and `lastBssid` is reset to
none on that same tick. -/
theorem rollback_on_failed_verify (cfg : Config) (st : WOState) (b : Mac)
    (happly : (tick cfg st (some b) false).applyMutated = true)
    (hver : (tick cfg st (some b) false).verified = true) :
    (tick cfg st (some b) false).wireless = none ∧
    (tick cfg st (some b) false).lastBssid = none ∧
    (tick cfg st (some b) false).rolledBack = true := by
  obtain ⟨w, lb⟩ := st
  obtain ⟨os, dr⟩ := cfg
  cases os with
  | false => simp [tick, update_bssid_none_bssid]
  | true =>
    cases lb with
    | none => simp [tick, update_bssid_none_bssid]
    | some a => simp [tick] at hver

/-- C6 witness: a concrete failed activation is rolled back. -/
theorem rollback_on_failed_verify_witness :
    (tick ⟨false, false⟩ ⟨none, none⟩ (some ⟨1, 2, 3, 4, 5, 6⟩)
        false).applyMutated = true ∧
    (tick ⟨false, false⟩ ⟨none, none⟩ (some ⟨1, 2, 3, 4, 5, 6⟩)
        false).verified = true ∧
    ((tick ⟨false, false⟩ ⟨none, none⟩ (some ⟨1, 2, 3, 4, 5, 6⟩)
        false).wireless = none ∧
      (tick ⟨false, false⟩ ⟨none, none⟩ (some ⟨1, 2, 3, 4, 5, 6⟩)
        false).lastBssid = none ∧
      (tick ⟨false, false⟩ ⟨none, none⟩ (some ⟨1, 2, 3, 4, 5, 6⟩)
        false).rolledBack = true) :=
  ⟨by decide, by decide,
    rollback_on_failed_verify ⟨false, false⟩ ⟨none, none⟩ ⟨1, 2, 3, 4, 5, 6⟩
      (by decide) (by decide)⟩

/-- C8: when no observed address matches the catalog the candidate list
is empty, the selector returns no selection, and the tick leaves the
profile with no stored override (any existing override is cleared). -/
theorem find_empty_clears_override (x y : ℚ) (targets : List Target)
    (bssids : List Mac) (h : matched_cands targets bssids = []) :
    find x y targets bssids = none ∧
    ∀ (cfg : Config) (st : WOState) (v : Bool),
      (tick cfg st (find x y targets bssids) v).wireless = none := by
  have hf : find x y targets bssids = none := by simp [find, h]
  refine ⟨hf, ?_⟩
  intro cfg st v
  rw [hf]
  obtain ⟨w, lb⟩ := st
  obtain ⟨os, dr⟩ := cfg
  simp [tick, update_bssid_none_bssid]

/-- C8 witness: one observed address, empty catalog, a previously set
override: the selector returns none and the tick clears the override. -/
theorem find_empty_clears_override_witness :
    matched_cands [] [⟨1, 2, 3, 4, 5, 6⟩] = [] ∧
    find 0 0 [] [⟨1, 2, 3, 4, 5, 6⟩] = none ∧
    (tick ⟨false, false⟩ ⟨some ⟨9, 2, 3, 4, 5, 6⟩, none⟩
      (find 0 0 [] [⟨1, 2, 3, 4, 5, 6⟩]) true).wireless = none :=
  ⟨rfl, (find_empty_clears_override 0 0 [] [⟨1, 2, 3, 4, 5, 6⟩] rfl).1,
    (find_empty_clears_override 0 0 [] [⟨1, 2, 3, 4, 5, 6⟩] rfl).2
      ⟨false, false⟩ ⟨some ⟨9, 2, 3, 4, 5, 6⟩, none⟩ true⟩

/-- C9: whatever the catalogs and scan input, a non-none result of the
selector is always one of the observed addresses it was given. -/
theorem find_mem_bssids (x y : ℚ) (targets : List Target)
    (bssids : List Mac) (b : Mac)
    (h : find x y targets bssids = some b) : b ∈ bssids := by
  unfold find at h
  cases hm : matched_cands targets bssids with
  | nil => rw [hm] at h; simp at h
  | cons c cs =>
    rw [hm] at h
    simp only [Option.some.injEq] at h
    have hr : cs.foldl (sel_step x y) c ∈ c :: cs :=
      foldl_choice_mem (sel_step x y)
        (fun b z => by
          by_cases hc : l2_dist_sq x y z.1 < l2_dist_sq x y b.1
          · right; exact sel_step_lt x y b z hc
          · left; exact sel_step_ge x y b z hc)
        cs c
    rw [← hm] at hr
    have := matched_cands_snd_mem targets bssids _ hr
    rw [h] at this
    exact this

/-- C9 witness: a matching single candidate is returned and is one of
the observed addresses. -/
theorem find_mem_bssids_witness :
    find 7 7 [⟨⟨1, 2, 3, 4, 5, 0⟩, 7, 7⟩] [⟨1, 2, 3, 4, 5, 0⟩] =
      some ⟨1, 2, 3, 4, 5, 0⟩ ∧
    (⟨1, 2, 3, 4, 5, 0⟩ : Mac) ∈ ([⟨1, 2, 3, 4, 5, 0⟩] : List Mac) :=
  ⟨rfl, find_mem_bssids 7 7 [⟨⟨1, 2, 3, 4, 5, 0⟩, 7, 7⟩]
    [⟨1, 2, 3, 4, 5, 0⟩] ⟨1, 2, 3, 4, 5, 0⟩ rfl⟩

end WifiOptimizer

namespace WifiOptimizer

/-- Catalog of the spec's selector example: records at (3,4) and (1,1),
with distinct base addresses. -/
def example_targets : List Target :=
  [⟨⟨1, 0, 0, 0, 0, 0⟩, 3, 4⟩, ⟨⟨2, 0, 0, 0, 0, 0⟩, 1, 1⟩]

/-- Observed addresses matching the two example records exactly. -/
def example_bssids : List Mac :=
  [⟨1, 0, 0, 0, 0, 0⟩, ⟨2, 0, 0, 0, 0, 0⟩]

/-- C7: for every station position and nonempty matched-candidate set the
selector returns the observed address of a candidate of minimum distance,
namely the first candidate attaining that minimum in candidate order
(stable tie-break); in particular, for a station at (0,0) with candidates
at (3,4) and (1,1) it returns the observed address of the one at (1,1). -/
theorem find_nearest_first_min :
    (∀ (x y : ℚ) (targets : List Target) (bssids : List Mac),
      matched_cands targets bssids ≠ [] →
      ∃ p ∈ matched_cands targets bssids,
        find x y targets bssids = some p.2 ∧
        (∀ q ∈ matched_cands targets bssids,
          l2_dist_sq x y p.1 ≤ l2_dist_sq x y q.1) ∧
        (matched_cands targets bssids).find?
            (fun q => decide (l2_dist_sq x y q.1 = l2_dist_sq x y p.1)) =
          some p) ∧
    find 0 0 example_targets example_bssids = some ⟨2, 0, 0, 0, 0, 0⟩ := by
  constructor
  · intro x y targets bssids h
    cases hm : matched_cands targets bssids with
    | nil => exact absurd hm h
    | cons c cs =>
      obtain ⟨hmin, hfind⟩ := foldl_min_spec x y cs c
      refine ⟨cs.foldl (sel_step x y) c, ?_, ?_, ?_, ?_⟩
      · exact List.mem_of_find?_eq_some hfind
      · simp [find, hm]
      · exact hmin
      · exact hfind
  · have hcands : matched_cands example_targets example_bssids =
        [(⟨⟨1, 0, 0, 0, 0, 0⟩, 3, 4⟩, ⟨1, 0, 0, 0, 0, 0⟩),
          (⟨⟨2, 0, 0, 0, 0, 0⟩, 1, 1⟩, ⟨2, 0, 0, 0, 0, 0⟩)] := rfl
    simp only [find, hcands, List.foldl_cons, List.foldl_nil]
    rw [sel_step_lt 0 0 (⟨⟨1, 0, 0, 0, 0, 0⟩, 3, 4⟩, ⟨1, 0, 0, 0, 0, 0⟩)
      (⟨⟨2, 0, 0, 0, 0, 0⟩, 1, 1⟩, ⟨2, 0, 0, 0, 0, 0⟩)
      (by norm_num [l2_dist_sq])]

/-- C7 witness: the general statement applied to the spec example (two
matched candidates, so the hypothesis is discharged concretely). -/
theorem find_nearest_first_min_witness :
    matched_cands example_targets example_bssids ≠ [] ∧
    (∃ p ∈ matched_cands example_targets example_bssids,
      find 0 0 example_targets example_bssids = some p.2 ∧
      (∀ q ∈ matched_cands example_targets example_bssids,
        l2_dist_sq 0 0 p.1 ≤ l2_dist_sq 0 0 q.1) ∧
      (matched_cands example_targets example_bssids).find?
          (fun q => decide (l2_dist_sq 0 0 q.1 = l2_dist_sq 0 0 p.1)) =
        some p) :=
  ⟨by decide, find_nearest_first_min.1 0 0 example_targets example_bssids
    (by decide)⟩

end WifiOptimizer
